import Mathlib

/-!
Verification of the safe-drive-AI telemetry / alerting / reward pipeline.

Numbers are modelled exactly: JavaScript floating-point values become `ℚ`,
millisecond timestamps become `ℤ`, and `Math.round` becomes `jsRound`
(round half toward positive infinity).  Solidity `uint256` quantities are
modelled as `ℕ`.  Fallible operations return `Except`, and the blockchain
queries of the frontend service take their (possibly failing) remote
results as explicit `Option (Except _ _)` inputs.
-/

namespace SafeDrive

/-- JavaScript `Math.round`: rounds half toward positive infinity,
`Math.round x = ⌊x + 1/2⌋`. -/
def jsRound (q : ℚ) : ℤ := ⌊q + 1/2⌋

/-! ## Safety Scorer (`realBlockchainService.ts`, `calculateSafetyScore`) -/

/-- Input metrics bundle of `calculateSafetyScore`. -/
structure SafetyMetrics where
  drowsinessLevel : ℚ
  stressLevel : ℚ
  interventionCount : ℚ
  routeCompliance : ℚ
  drivingDuration : ℚ
deriving DecidableEq

/-- Result record of `calculateSafetyScore`. -/
structure SafetyScore where
  drowsinessScore : ℚ
  stressScore : ℚ
  interventionCount : ℚ
  routeCompliance : ℚ
  overallScore : ℤ
deriving DecidableEq

/-- `RealBlockchainService.calculateSafetyScore`: weighted scoring algorithm. -/
def calculateSafetyScore (m : SafetyMetrics) : SafetyScore :=
  let drowsinessScore := max 0 (100 - m.drowsinessLevel * 20)
  let stressScore := max 0 (100 - m.stressLevel * 15)
  let interventionPenalty := min 30 (m.interventionCount * 5)
  let routeScore := m.routeCompliance
  let overallScore := jsRound
    (drowsinessScore * 0.3 + stressScore * 0.25 + routeScore * 0.25 +
      max 0 (100 - interventionPenalty) * 0.2)
  { drowsinessScore := drowsinessScore
    stressScore := stressScore
    interventionCount := m.interventionCount
    routeCompliance := routeScore
    overallScore := min 100 (max 0 overallScore) }

/-- The Safety Scorer formula exactly as the specification states it:
`clamp(round(drowsinessScore*0.30 + stressScore*0.25 + routeCompliance*0.25
+ max(0,100-interventionPenalty)*0.20), 0, 100)` with
`drowsinessScore = max(0,100-drowsiness*20)`, `stressScore = max(0,100-stress*15)`
and `interventionPenalty = min(30, interventionCount*5)`. -/
def specOverallScore (drowsiness stress interventionCount routeCompliance : ℚ) : ℤ :=
  min 100 (max 0 (jsRound
    (max 0 (100 - drowsiness * 20) * 0.30 +
     max 0 (100 - stress * 15) * 0.25 +
     routeCompliance * 0.25 +
     max 0 (100 - min 30 (interventionCount * 5)) * 0.20)))

/-! ## Session Aggregator (`UnifiedWellnessDashboard`, `groupIntoSessions` /
`createSessionData`) -/

/-- One wellness-history item: a telemetry sample with a millisecond
timestamp and drowsiness / stress scores (0–1 scale). -/
structure HistoryItem where
  timestamp : ℤ
  drowsiness : ℚ
  stress : ℚ
deriving DecidableEq

/-- A closed session summary (`SessionData`).  The locale-formatted display
strings (`date`, `startTime`, `endTime`) are carried as the underlying
millisecond instants. -/
structure SessionData where
  sessionId : ℤ
  startTimeMs : ℤ
  endTimeMs : ℤ
  duration : ℤ
  avgDrowsiness : ℤ
  avgStress : ℤ
  safetyScore : ℤ
  dataPoints : ℕ
deriving DecidableEq

/-- `createSessionData(sessionItems)` on the non-empty list
`first :: rest`: averages by `reduce`-style folding, rounds the stored
values, and scores with `max(0, 100 - (avgDrowsiness*30 + avgStress*25))`. -/
def createSessionData (first : HistoryItem) (rest : List HistoryItem) : SessionData :=
  let items := first :: rest
  let startTime := first.timestamp
  let endTime := (items.getLast (List.cons_ne_nil first rest)).timestamp
  let avgDrowsiness : ℚ :=
    (items.foldl (fun sum item => sum + item.drowsiness) 0) / items.length
  let avgStress : ℚ :=
    (items.foldl (fun sum item => sum + item.stress) 0) / items.length
  let safetyScore : ℚ := max 0 (100 - (avgDrowsiness * 30 + avgStress * 25))
  { sessionId := startTime
    startTimeMs := startTime
    endTimeMs := endTime
    duration := jsRound (((endTime - startTime : ℤ) : ℚ) / 1000 / 60)
    avgDrowsiness := jsRound avgDrowsiness
    avgStress := jsRound avgStress
    safetyScore := jsRound safetyScore
    dataPoints := items.length }

/-- The hard-coded session gap threshold: `5 * 60 * 1000` milliseconds. -/
def sessionGapMs : ℤ := 5 * 60 * 1000

/-- Loop state of `groupIntoSessions`: completed sessions (in push order),
the items of the current session, and the last seen timestamp. -/
structure GroupState where
  sessions : List SessionData
  curr : List HistoryItem
  last : Option ℤ

/-- One iteration of the `history.forEach` loop in `groupIntoSessions`:
a gap strictly greater than `sessionGapMs` closes the current session. -/
def groupStep (st : GroupState) (item : HistoryItem) : GroupState :=
  let isGap : Bool := match st.last with
    | some t => decide (item.timestamp - t > sessionGapMs)
    | none => false
  if isGap then
    match st.curr with
    | [] => { st with curr := [item], last := some item.timestamp }
    | f :: r =>
        { sessions := st.sessions ++ [createSessionData f r]
          curr := [item]
          last := some item.timestamp }
  else
    { st with curr := st.curr ++ [item], last := some item.timestamp }

/-- The trailing "add last session" step of `groupIntoSessions`. -/
def finalizeSessions (st : GroupState) : List SessionData :=
  match st.curr with
  | [] => st.sessions
  | f :: r => st.sessions ++ [createSessionData f r]

/-- `groupIntoSessions(history)`: splits the ordered history at gaps
strictly above five minutes and returns the sessions most-recent-first. -/
def groupIntoSessions (history : List HistoryItem) : List SessionData :=
  if history.isEmpty then []
  else (finalizeSessions (history.foldl groupStep ⟨[], [], none⟩)).reverse

/-- Number of adjacent pairs in a timestamp list whose gap exceeds
`sessionGapMs` strictly. -/
def bigGaps : List ℤ → ℕ
  | t1 :: t2 :: rest => (if t2 - t1 > sessionGapMs then 1 else 0) + bigGaps (t2 :: rest)
  | _ => 0

/-! ## Alert Engine (`RouteOptimizer.tsx`, `SafetyAlerts`) -/

/-- Alert categories.  The source string `"break"` is rendered as
`breakReminder` because `break` is reserved in Lean. -/
inductive AlertType
  | drowsiness
  | stress
  | steering
  | breakReminder
deriving DecidableEq, Fintype

/-- Alert severities. -/
inductive Severity
  | low
  | medium
  | high
  | critical
deriving DecidableEq, Fintype

/-- An alert record.  Ids are the source's template strings
`` `drowsiness-${Date.now()}` ``. -/
structure Alert where
  id : String
  type : AlertType
  severity : Severity
  message : String
  timestamp : ℤ
  acknowledged : Bool
  recommendations : List String
deriving DecidableEq

/-- The monitoring data consumed by the alert effect. -/
structure MonitoringData where
  drowsiness : ℚ
  stress : ℚ
  isActive : Bool
deriving DecidableEq

/-- The drowsiness branch of the alert-generation effect:
`critical > 0.7`, `high > 0.5`, `medium > 0.35`, else nothing. -/
def drowsinessAlerts (now : ℤ) (d : ℚ) : List Alert :=
  if d > 0.7 then
    [{ id := "drowsiness-" ++ toString now
       type := .drowsiness
       severity := .critical
       message := "Critical drowsiness detected! Pull over immediately."
       timestamp := now
       acknowledged := false
       recommendations :=
         ["Find the nearest safe location to stop",
          "Take a 15-20 minute power nap",
          "Drink caffeine if available",
          "Do not continue driving until fully alert"] }]
  else if d > 0.5 then
    [{ id := "drowsiness-" ++ toString now
       type := .drowsiness
       severity := .high
       message := "High drowsiness level detected. Consider taking a break."
       timestamp := now
       acknowledged := false
       recommendations :=
         ["Look for a rest area within the next 10 minutes",
          "Open windows for fresh air",
          "Engage in conversation or play upbeat music",
          "Plan a break at the next safe location"] }]
  else if d > 0.35 then
    [{ id := "drowsiness-" ++ toString now
       type := .drowsiness
       severity := .medium
       message := "Moderate drowsiness detected. Stay alert."
       timestamp := now
       acknowledged := false
       recommendations :=
         ["Take a short break if possible",
          "Stay hydrated",
          "Adjust your posture"] }]
  else []

/-- The stress branch of the alert-generation effect:
`critical > 0.8`, `high > 0.6`, `medium > 0.45`, else nothing. -/
def stressAlerts (now : ℤ) (s : ℚ) : List Alert :=
  if s > 0.8 then
    [{ id := "stress-" ++ toString now
       type := .stress
       severity := .critical
       message := "Extreme stress levels detected. Take immediate action."
       timestamp := now
       acknowledged := false
       recommendations :=
         ["Pull over safely and practice deep breathing",
          "Take 5-10 minutes to calm down",
          "Consider calling someone for support",
          "Reassess your route and timeline"] }]
  else if s > 0.6 then
    [{ id := "stress-" ++ toString now
       type := .stress
       severity := .high
       message := "High stress levels detected. Practice stress management."
       timestamp := now
       acknowledged := false
       recommendations :=
         ["Practice deep breathing exercises",
          "Reduce driving speed if safe to do so",
          "Listen to calming music",
          "Plan a break at the next opportunity"] }]
  else if s > 0.45 then
    [{ id := "stress-" ++ toString now
       type := .stress
       severity := .medium
       message := "Moderate stress detected. Take it easy."
       timestamp := now
       acknowledged := false
       recommendations :=
         ["Take deep breaths",
          "Relax your shoulders",
          "Listen to calming music"] }]
  else []

/-- JavaScript `array.slice(-n)`: the last `n` elements. -/
def sliceLast {α : Type} (n : ℕ) (l : List α) : List α := l.drop (l.length - n)

/-- One run of the alert-generation effect on a monitoring sample:
builds the new alerts, drops every unacknowledged previous alert whose
type reappears, appends the new alerts, and keeps the last 10. -/
def alertsStep (now : ℤ) (data : MonitoringData) (prev : List Alert) : List Alert :=
  if !data.isActive then prev
  else
    let newAlerts := drowsinessAlerts now data.drowsiness ++ stressAlerts now data.stress
    if newAlerts.isEmpty then prev
    else
      let filtered := prev.filter fun alert =>
        ! newAlerts.any fun newAlert => newAlert.type == alert.type && ! alert.acknowledged
      sliceLast 10 (filtered ++ newAlerts)

/-- `acknowledgeAlert(alertId)`: mark the matching alert acknowledged. -/
def acknowledgeAlert (alertId : String) (l : List Alert) : List Alert :=
  l.map fun alert => if alert.id == alertId then { alert with acknowledged := true } else alert

/-- `dismissAlert(alertId)`: remove the matching alert entirely. -/
def dismissAlert (alertId : String) (l : List Alert) : List Alert :=
  l.filter fun alert => alert.id != alertId

/-- Number of unacknowledged alerts of a given type in a list. -/
def unackCount (t : AlertType) (l : List Alert) : ℕ :=
  (l.filter fun alert => alert.type == t && ! alert.acknowledged).length

/-- The duplicate-suppression invariant: at most one unacknowledged alert
of each type is in the list. -/
def atMostOneUnackPerType (l : List Alert) : Prop :=
  ∀ t : AlertType, unackCount t l ≤ 1

instance (l : List Alert) : Decidable (atMostOneUnackPerType l) :=
  inferInstanceAs (Decidable (∀ t : AlertType, unackCount t l ≤ 1))

/-! ## Achievement eligibility (`realBlockchainService.ts`,
`checkAchievementEligibility`) -/

/-- Result of `checkAchievementEligibility`. -/
structure EligibilityResult where
  eligible : Bool
  achievementType : Option ℕ
  description : Option String
deriving DecidableEq

/-- `checkAchievementEligibility`, as a function of the fetched log count
and cumulative `totalEarned`: bronze (type 0) is tested first, then
silver (1), then gold (2). -/
def checkAchievementEligibility (logCount : ℕ) (totalEarned : ℚ) : EligibilityResult :=
  if logCount ≥ 10 ∧ totalEarned ≥ 5 then
    ⟨true, some 0, some "Complete 10 safe driving sessions"⟩
  else if logCount ≥ 50 ∧ totalEarned ≥ 25 then
    ⟨true, some 1, some "Complete 50 safe driving sessions"⟩
  else if logCount ≥ 100 ∧ totalEarned ≥ 100 then
    ⟨true, some 2, some "Complete 100 safe driving sessions"⟩
  else ⟨false, none, none⟩

/-! ## Read queries (`realBlockchainService.ts`, `getDriverRewards` /
`getDriverLogs`) -/

/-- The raw tuple returned by the on-chain `getDriverInfo` call
(wei-denominated balances). -/
structure DriverInfoRaw where
  totalScore : ℕ
  lastUpdateTime : ℕ
  totalRewardsEarned : ℕ
  totalRewardsRedeemed : ℕ
  currentBalance : ℕ
  isActive : Bool
deriving DecidableEq

/-- The `DriverRewards` record exposed to the UI.  The source's
ether-denominated decimal strings are modelled as exact rationals. -/
structure DriverRewards where
  totalEarned : ℚ
  totalRedeemed : ℚ
  currentBalance : ℚ
  lastUpdate : ℤ
  totalScore : ℕ
  isActive : Bool
deriving DecidableEq

/-- `ethers.formatEther`: wei to ether, an exact division by `10^18`. -/
def formatEther (wei : ℕ) : ℚ := (wei : ℚ) / 10 ^ 18

/-- `getDriverRewards`.  `query = none` models an uninitialized
`safeDrivingToken` contract; `some (.error e)` models a thrown contract
call caught by the `catch` block; both return the inactive zero account.
`now` stands for `Date.now()`. -/
def getDriverRewards (now : ℤ) (query : Option (Except String DriverInfoRaw)) :
    DriverRewards :=
  match query with
  | none => ⟨0, 0, 0, now, 0, false⟩
  | some (.error _) => ⟨0, 0, 0, now, 0, false⟩
  | some (.ok info) =>
      ⟨formatEther info.totalRewardsEarned,
       formatEther info.totalRewardsRedeemed,
       formatEther info.currentBalance,
       (info.lastUpdateTime : ℤ) * 1000,
       info.totalScore,
       info.isActive⟩

/-- A raw on-chain wellness log entry. -/
structure RawWellnessLog where
  timestamp : ℕ
  drowsinessEvents : ℕ
  stressLevel : ℕ
  interventions : ℕ
  routeCompliance : ℕ
  gpsCoordinates : String
  dataHash : ℕ
deriving DecidableEq

/-- The `WellnessLog` view returned to the UI (timestamps in ms). -/
structure WellnessLogView where
  timestamp : ℤ
  drowsinessEvents : ℕ
  stressLevel : ℕ
  interventions : ℕ
  routeCompliance : ℕ
  gpsCoordinates : String
  dataHash : ℕ
deriving DecidableEq

/-- `getDriverLogs`.  `query = none` models an uninitialized
`driverWellnessNFT` contract; `some (.error e)` a thrown call; both
return the empty list. -/
def getDriverLogs (query : Option (Except String (List RawWellnessLog))) :
    List WellnessLogView :=
  match query with
  | none => []
  | some (.error _) => []
  | some (.ok logs) =>
      logs.map fun log =>
        ⟨(log.timestamp : ℤ) * 1000, log.drowsinessEvents, log.stressLevel,
         log.interventions, log.routeCompliance, log.gpsCoordinates, log.dataHash⟩

/-! ## Reward Ledger settlement -/

/-- A driver reward account held by the token ledger. -/
structure LedgerAccount where
  totalScore : ℤ
  totalEarned : ℚ
  totalRedeemed : ℚ
  currentBalance : ℚ
  isActive : Bool
deriving DecidableEq

/-- Ledger state: the driver's account plus the set of already-settled
session identifiers. -/
structure LedgerState where
  account : LedgerAccount
  settledSessions : List ℕ
deriving DecidableEq

/-- Outcome of a settlement attempt. -/
inductive SettleResult
  | belowThreshold (msg : String)
  | duplicate
  | minted (amount : ℚ)
deriving DecidableEq

/-- Modelled from the spec: the `SafeDrivingToken` contract that implements
the mint path behind `settleSession` (its `updateSafetyScore` /
`getDriverInfo` / `redeemReward` entry points) is not under `src/` — only
its ABI strings and its frontend callers are.  Per the spec, settlement
gates on `safetyScore ≥ 70` (otherwise a below-threshold rejection), mints
`score/100 × base-rate × duration-factor` capped at `cap`, increments
`totalEarned` and `currentBalance` by the minted amount, and is keyed by
session identifier with duplicate settlements treated as no-ops. -/
def settleSession (baseRate cap : ℚ) (durationFactor : ℕ → ℚ)
    (sessionId : ℕ) (score : ℤ) (duration : ℕ) (st : LedgerState) :
    SettleResult × LedgerState :=
  if score < 70 then
    (.belowThreshold "Safety score too low for rewards (minimum 70%)", st)
  else if sessionId ∈ st.settledSessions then
    (.duplicate, st)
  else
    let amount := min cap ((score : ℚ) / 100 * baseRate * durationFactor duration)
    (.minted amount,
     { account :=
         { st.account with
           totalScore := score
           totalEarned := st.account.totalEarned + amount
           currentBalance := st.account.currentBalance + amount }
       settledSessions := sessionId :: st.settledSessions })

/-- Result record of `distributeRewards` (`success`, parsed
`rewardAmount`, `error`). -/
structure DistributeResult where
  success : Bool
  rewardAmount : Option ℚ
  error : Option String
deriving DecidableEq

/-- `RealBlockchainService.distributeRewards`: returns the deployment
error when the contracts are not ready, rejects scores below 70 before
any mint, and otherwise executes the settlement (the on-chain mint is the
spec-modelled `settleSession`; a settlement that emits no `RewardMinted`
event reports amount `0`). -/
def distributeRewards (baseRate cap : ℚ) (durationFactor : ℕ → ℚ)
    (contractsReady : Bool) (sessionId : ℕ) (safetyScore : SafetyScore)
    (drivingDuration : ℕ) (st : LedgerState) : DistributeResult × LedgerState :=
  if !contractsReady then
    (⟨false, none, some "Contracts not deployed. Run: npm run deploy"⟩, st)
  else if safetyScore.overallScore < 70 then
    (⟨false, none, some "Safety score too low for rewards (minimum 70%)"⟩, st)
  else
    match settleSession baseRate cap durationFactor sessionId
        safetyScore.overallScore drivingDuration st with
    | (.minted amount, st') => (⟨true, some amount, none⟩, st')
    | (.duplicate, st') => (⟨true, some 0, none⟩, st')
    | (.belowThreshold msg, st') => (⟨false, none, some msg⟩, st')

/-! ## DriverWellnessNFT (`DriverWellnessNFT.sol`, `mintAchievement`) -/

/-- The contract's `AchievementType` enum. -/
inductive AchievementType
  | safeDriverBronze
  | safeDriverSilver
  | safeDriverGold
  | wellnessChampion
  | routeMaster
  | emergencyHero
deriving DecidableEq, Fintype

/-- The constructor-installed `achievementURIs` mapping. -/
def achievementURI : AchievementType → String
  | .safeDriverBronze => "ipfs://QmBronzeSafeDriver"
  | .safeDriverSilver => "ipfs://QmSilverSafeDriver"
  | .safeDriverGold => "ipfs://QmGoldSafeDriver"
  | .wellnessChampion => "ipfs://QmWellnessChampion"
  | .routeMaster => "ipfs://QmRouteMaster"
  | .emergencyHero => "ipfs://QmEmergencyHero"

/-- The `WellnessNFT` metadata struct stored per token. -/
structure WellnessNFT where
  achievementType : AchievementType
  mintTimestamp : ℕ
  safetyScore : ℕ
  drivingHours : ℕ
  metadataURI : String
deriving DecidableEq

/-- Contract state of `DriverWellnessNFT`: the token counter, per-token
metadata, ERC721 ownership, the achievement total and the authorized
loggers. -/
structure NFTState where
  tokenIdCounter : ℕ
  nftData : List (ℕ × WellnessNFT)
  owners : List (ℕ × String)
  totalAchievements : ℕ
  authorizedLoggers : List String
deriving DecidableEq

/-- `DriverWellnessNFT.mintAchievement`: reverts only on the
`onlyAuthorizedLogger` modifier; otherwise takes the next token id,
mints it to the driver, stores the metadata and increments
`totalAchievements`.  `now` stands for `block.timestamp`. -/
def mintAchievement (caller driver : String) (achievementType : AchievementType)
    (safetyScore drivingHours now : ℕ) (st : NFTState) :
    Except String (ℕ × NFTState) :=
  if caller ∉ st.authorizedLoggers then .error "Not authorized to log"
  else
    let tokenId := st.tokenIdCounter
    .ok (tokenId,
      { tokenIdCounter := st.tokenIdCounter + 1
        nftData := (tokenId,
          ⟨achievementType, now, safetyScore, drivingHours,
           achievementURI achievementType⟩) :: st.nftData
        owners := (tokenId, driver) :: st.owners
        totalAchievements := st.totalAchievements + 1
        authorizedLoggers := st.authorizedLoggers })

/-- The freshly deployed zero ledger state. -/
def emptyLedger : LedgerState := ⟨⟨0, 0, 0, 0, false⟩, []⟩

/-- The freshly deployed `DriverWellnessNFT` state with one authorized
logger (the deployer). -/
def initialNFTState : NFTState := ⟨0, [], [], 0, ["0xdeployer"]⟩

/-- The contract state after a first bronze mint for driver `0xdriver`
(safety score 95, 12 driving hours, block time 100) from
`initialNFTState`. -/
def nftAfterBronze : NFTState :=
  ⟨1,
   [(0, ⟨.safeDriverBronze, 100, 95, 12, achievementURI .safeDriverBronze⟩)],
   [(0, "0xdriver")],
   1,
   ["0xdeployer"]⟩

/-- The contract state after minting bronze a second time for the same
driver from `nftAfterBronze` (block time 200). -/
def nftAfterSecondBronze : NFTState :=
  ⟨2,
   [(1, ⟨.safeDriverBronze, 200, 95, 12, achievementURI .safeDriverBronze⟩),
    (0, ⟨.safeDriverBronze, 100, 95, 12, achievementURI .safeDriverBronze⟩)],
   [(1, "0xdriver"), (0, "0xdriver")],
   2,
   ["0xdeployer"]⟩

/-!
# Theorems
-/

/-- C2: `calculateSafetyScore` returns exactly the specification's weighted
formula: the overall score is `clamp(round(max(0,100−d·20)·0.30 +
max(0,100−s·15)·0.25 + rc·0.25 + max(0,100−min(30,ic·5))·0.20), 0, 100)`.
The implementation applies the formula to the inputs exactly as given (the
normalization of the inputs is the identity). -/
theorem calculateSafetyScore_matches_spec (m : SafetyMetrics) :
    (calculateSafetyScore m).overallScore =
      specOverallScore m.drowsinessLevel m.stressLevel
        m.interventionCount m.routeCompliance := by
  norm_num [calculateSafetyScore, specOverallScore]

/-- C1: settling the same session twice with the same session identifier
and inputs yields the same post state — in particular the same
`currentBalance` and `totalEarned` — as a single settlement:
`settleSession` is idempotent per session and never double-mints. -/
theorem settleSession_idempotent (baseRate cap : ℚ) (durationFactor : ℕ → ℚ)
    (sessionId : ℕ) (score : ℤ) (duration : ℕ) (st : LedgerState) :
    (settleSession baseRate cap durationFactor sessionId score duration
        (settleSession baseRate cap durationFactor sessionId score duration st).2).2
      = (settleSession baseRate cap durationFactor sessionId score duration st).2 := by
  unfold settleSession
  by_cases h : score < 70
  · simp [h]
  · by_cases hs : sessionId ∈ st.settledSessions
    · simp [h, hs]
    · simp [h, hs]

/-- C9 counterexample: a driver with 100 logged sessions and 100 earned
meets the gold thresholds (`logs ≥ 100` and `earned ≥ 100`), yet
`checkAchievementEligibility` reports bronze (type 0), not the highest
eligible tier (gold, type 2): the tiers are tested lowest-first. -/
theorem checkAchievementEligibility_not_highest_tier :
    checkAchievementEligibility 100 100
        = ⟨true, some 0, some "Complete 10 safe driving sessions"⟩
    ∧ (100 ≥ 100 ∧ (100 : ℚ) ≥ 100)
    ∧ some (0 : ℕ) ≠ some 2 := by
  refine ⟨?_, by norm_num, by simp⟩
  norm_num [checkAchievementEligibility]

/-- C9 (amended): `checkAchievementEligibility` returns at most one
achievement per call, but it tests the tiers lowest-first and every
higher tier's thresholds imply the bronze thresholds, so it only ever
reports bronze (type 0) or nothing — never silver or gold — and it never
consults already-minted achievements (they are not among its inputs). -/
theorem checkAchievementEligibility_bronze_or_none (logCount : ℕ) (totalEarned : ℚ) :
    checkAchievementEligibility logCount totalEarned = ⟨false, none, none⟩
    ∨ checkAchievementEligibility logCount totalEarned
        = ⟨true, some 0, some "Complete 10 safe driving sessions"⟩ := by
  unfold checkAchievementEligibility
  split_ifs with h1 h2 h3
  · right; rfl
  · obtain ⟨h2a, h2b⟩ := h2
    exact absurd ⟨by omega, by linarith⟩ h1
  · obtain ⟨h3a, h3b⟩ := h3
    exact absurd ⟨by omega, by linarith⟩ h1
  · left; rfl

/-- C10: the read queries are total and default on failure: with an
uninitialized contract (`none`) or a throwing call (`some (.error e)`),
`getDriverRewards` returns the all-zero inactive account and
`getDriverLogs` returns the empty list. -/
theorem read_queries_default_on_failure (now : ℤ)
    (q : Option (Except String DriverInfoRaw))
    (q' : Option (Except String (List RawWellnessLog)))
    (h : q = none ∨ ∃ e, q = some (.error e))
    (h' : q' = none ∨ ∃ e, q' = some (.error e)) :
    getDriverRewards now q = ⟨0, 0, 0, now, 0, false⟩ ∧ getDriverLogs q' = [] := by
  constructor
  · rcases h with rfl | ⟨e, rfl⟩ <;> rfl
  · rcases h' with rfl | ⟨e, rfl⟩ <;> rfl

/-- Witness for C10 at `now = 0`, an uninitialized rewards contract and a
throwing logs query. -/
theorem read_queries_default_on_failure_witness :
    getDriverRewards 0 none = ⟨0, 0, 0, 0, 0, false⟩
    ∧ getDriverLogs (some (.error "network error")) = [] :=
  read_queries_default_on_failure 0 none (some (.error "network error"))
    (Or.inl rfl) (Or.inr ⟨"network error", rfl⟩)

/-- C5 counterexample: starting from the freshly deployed contract, the
deployer mints `SAFE_DRIVER_BRONZE` for driver `0xdriver` twice; the
second call does not fail with any `AlreadyMintedError` — it succeeds and
creates a second achievement record (`totalAchievements = 2`). -/
theorem mintAchievement_double_mint :
    mintAchievement "0xdeployer" "0xdriver" .safeDriverBronze 95 12 100
        initialNFTState = .ok (0, nftAfterBronze)
    ∧ mintAchievement "0xdeployer" "0xdriver" .safeDriverBronze 95 12 200
        nftAfterBronze = .ok (1, nftAfterSecondBronze)
    ∧ mintAchievement "0xdeployer" "0xdriver" .safeDriverBronze 95 12 200
        nftAfterBronze ≠ .error "AlreadyMintedError"
    ∧ nftAfterSecondBronze.totalAchievements = 2 := by
  refine ⟨?_, ?_, ?_, rfl⟩ <;>
    simp [mintAchievement, initialNFTState, nftAfterBronze, nftAfterSecondBronze,
      achievementURI]

/-- C5 (amended): `mintAchievement` performs no duplicate check: whenever
the caller is authorized it succeeds — even when an achievement of the
same type is already recorded for the same driver — and mints a fresh
token, pushing a second record and incrementing `totalAchievements`. -/
theorem mintAchievement_always_mints (caller driver : String)
    (achievementType : AchievementType) (safetyScore drivingHours now tid : ℕ)
    (nft : WellnessNFT) (st : NFTState)
    (hauth : caller ∈ st.authorizedLoggers)
    (_hprev : (tid, nft) ∈ st.nftData)
    (_hty : nft.achievementType = achievementType)
    (_hown : (tid, driver) ∈ st.owners) :
    mintAchievement caller driver achievementType safetyScore drivingHours now st
      = .ok (st.tokenIdCounter,
          { tokenIdCounter := st.tokenIdCounter + 1
            nftData := (st.tokenIdCounter,
              ⟨achievementType, now, safetyScore, drivingHours,
               achievementURI achievementType⟩) :: st.nftData
            owners := (st.tokenIdCounter, driver) :: st.owners
            totalAchievements := st.totalAchievements + 1
            authorizedLoggers := st.authorizedLoggers }) := by
  simp [mintAchievement, hauth]

/-- Witness for C5's amended theorem: a second bronze mint for `0xdriver`
from the state that already holds their bronze achievement. -/
theorem mintAchievement_always_mints_witness :
    "0xdeployer" ∈ nftAfterBronze.authorizedLoggers
    ∧ ((0 : ℕ), (⟨.safeDriverBronze, 100, 95, 12,
        achievementURI .safeDriverBronze⟩ : WellnessNFT)) ∈ nftAfterBronze.nftData
    ∧ ((0 : ℕ), "0xdriver") ∈ nftAfterBronze.owners
    ∧ mintAchievement "0xdeployer" "0xdriver" .safeDriverBronze 95 12 200
        nftAfterBronze
        = .ok (1, nftAfterSecondBronze) := by
  refine ⟨by simp [nftAfterBronze], by simp [nftAfterBronze], by simp [nftAfterBronze], ?_⟩
  have h := mintAchievement_always_mints "0xdeployer" "0xdriver" .safeDriverBronze
    95 12 200 0 ⟨.safeDriverBronze, 100, 95, 12, achievementURI .safeDriverBronze⟩
    nftAfterBronze (by simp [nftAfterBronze]) (by simp [nftAfterBronze]) rfl
    (by simp [nftAfterBronze])
  rw [h]
  simp [nftAfterBronze, nftAfterSecondBronze]

/-- JavaScript `reduce((sum, item) => sum + f(item), init)` equals
`init` plus the sum of the mapped values. -/
lemma foldl_add_eq_sum (f : HistoryItem → ℚ) (l : List HistoryItem) (init : ℚ) :
    l.foldl (fun sum item => sum + f item) init = init + (l.map f).sum := by
  induction l generalizing init with
  | nil => simp
  | cons x xs ih => simp [ih]; ring

/-- C7 (amended): the closed session's stored `avgDrowsiness` and
`avgStress` equal the arithmetic mean of exactly the folded samples'
drowsiness and stress values, rounded to the nearest integer by
`Math.round` — not the exact mean. -/
theorem session_avg_eq_rounded_mean (first : HistoryItem) (rest : List HistoryItem) :
    (createSessionData first rest).avgDrowsiness
        = jsRound ((((first :: rest).map HistoryItem.drowsiness).sum)
            / ((first :: rest).length : ℚ))
    ∧ (createSessionData first rest).avgStress
        = jsRound ((((first :: rest).map HistoryItem.stress).sum)
            / ((first :: rest).length : ℚ)) := by
  constructor <;>
    simp [createSessionData, foldl_add_eq_sum HistoryItem.drowsiness,
      foldl_add_eq_sum HistoryItem.stress]

/-- C7 counterexample: a session of two samples with drowsiness `0.2` and
`0.3` has arithmetic mean `0.25`, but `createSessionData` stores
`avgDrowsiness = 0` (`Math.round(0.25)`): the stored value differs from
the mean by `0.25`, far beyond floating-point tolerance. -/
theorem session_avg_not_exact_mean :
    ((createSessionData ⟨0, 1/5, 0⟩ [⟨1000, 3/10, 0⟩]).avgDrowsiness : ℚ) = 0
    ∧ (([(⟨0, 1/5, 0⟩ : HistoryItem), ⟨1000, 3/10, 0⟩].map HistoryItem.drowsiness).sum
        / ([(⟨0, 1/5, 0⟩ : HistoryItem), ⟨1000, 3/10, 0⟩].length : ℚ) = 1/4)
    ∧ ((0 : ℚ) ≠ 1/4) := by
  refine ⟨?_, by norm_num, by norm_num⟩
  norm_num [createSessionData, jsRound]

/-- Loop invariant of `groupIntoSessions`: continuing the fold from a
state with a non-empty current session and last timestamp `t` produces
one session per strict big gap, plus the current one. -/
lemma finalize_foldl_length (rest : List HistoryItem) :
    ∀ (sess : List SessionData) (f : HistoryItem) (cr : List HistoryItem) (t : ℤ),
      (finalizeSessions (rest.foldl groupStep ⟨sess, f :: cr, some t⟩)).length
        = sess.length + 1 + bigGaps (t :: rest.map HistoryItem.timestamp) := by
  induction rest with
  | nil => intro sess f cr t; simp [finalizeSessions, bigGaps]
  | cons x xs ih =>
    intro sess f cr t
    by_cases h : x.timestamp - t > sessionGapMs
    · have hstep : groupStep ⟨sess, f :: cr, some t⟩ x
          = ⟨sess ++ [createSessionData f cr], [x], some x.timestamp⟩ := by
        simp [groupStep, h]
      rw [List.foldl_cons, hstep, show ([x] : List HistoryItem) = x :: [] from rfl, ih]
      simp [bigGaps, h]
      omega
    · have hstep : groupStep ⟨sess, f :: cr, some t⟩ x
          = ⟨sess, f :: (cr ++ [x]), some x.timestamp⟩ := by
        simp [groupStep, h]
      rw [List.foldl_cons, hstep, ih]
      simp [bigGaps, h]

/-- C6 (amended): on any non-empty ordered stream, `groupIntoSessions`
produces exactly `1 +` the number of consecutive pairs whose timestamp
gap is STRICTLY greater than the 5-minute threshold: a gap `> threshold`
always yields two distinct sessions and a gap `≤ threshold` (including a
gap of exactly 5 minutes) always keeps one session. -/
theorem groupIntoSessions_count (history : List HistoryItem) (h : history ≠ []) :
    (groupIntoSessions history).length
      = 1 + bigGaps (history.map HistoryItem.timestamp) := by
  match history with
  | f :: rest =>
    unfold groupIntoSessions
    have hstep : groupStep ⟨[], [], none⟩ f = ⟨[], f :: [], some f.timestamp⟩ := by
      simp [groupStep]
    simp only [List.isEmpty_cons, if_neg, Bool.false_eq_true, not_false_eq_true,
      List.foldl_cons, List.length_reverse, List.map_cons]
    rw [hstep, finalize_foldl_length]
    simp

/-- Witness for C6's amended theorem: two samples 6 minutes apart produce
`1 + 1` sessions. -/
theorem groupIntoSessions_count_witness :
    (groupIntoSessions [⟨0, 0, 0⟩, ⟨360000, 0, 0⟩]).length
      = 1 + bigGaps ([(⟨0, 0, 0⟩ : HistoryItem), ⟨360000, 0, 0⟩].map HistoryItem.timestamp) :=
  groupIntoSessions_count [⟨0, 0, 0⟩, ⟨360000, 0, 0⟩] (by simp)

/-- C6 counterexample: two samples exactly 5 minutes (300000 ms) apart —
a gap `≥` the session-gap threshold — produce ONE session, not the two
the claim requires: the code splits only on gaps STRICTLY greater than
the threshold. -/
theorem gap_equal_threshold_one_session :
    (300000 : ℤ) - 0 ≥ sessionGapMs
    ∧ (groupIntoSessions [⟨0, 0, 0⟩, ⟨300000, 0, 0⟩]).length = 1
    ∧ (1 : ℕ) ≠ 2 := by
  refine ⟨by norm_num [sessionGapMs], ?_, by decide⟩
  norm_num [groupIntoSessions, groupStep, finalizeSessions, sessionGapMs, List.foldl]

/-- C3 counterexample: for a session at constant drowsiness `1`, stress
`0`, with no interventions and full route compliance, the Session
Aggregator's `createSessionData` scores `70` while the Reward Ledger's
`calculateSafetyScore` scores `94`: the two consumers do not use
identical weights and their scores diverge. -/
theorem dashboard_ledger_divergence :
    (createSessionData ⟨0, 1, 0⟩ []).safetyScore = 70
    ∧ (calculateSafetyScore ⟨1, 0, 0, 100, 3600⟩).overallScore = 94
    ∧ (70 : ℤ) ≠ 94 := by
  refine ⟨?_, ?_, by decide⟩ <;>
    norm_num [createSessionData, calculateSafetyScore, jsRound]

/-- `jsRound` is monotone. -/
lemma jsRound_mono {a b : ℚ} (h : a ≤ b) : jsRound a ≤ jsRound b :=
  Int.floor_mono (by linarith)

/-- C3 (amended): the dashboard (`createSessionData`,
`max(0, 100 - (avgDrowsiness*30 + avgStress*25))`) and the ledger
(`calculateSafetyScore`, weighted 30/25/25/20 formula) use different
formulas and diverge; for any single-sample session with 0–1 scale
scores, no interventions and full route compliance, the ledger's score
always dominates the dashboard's (strictly at the counterexample). -/
theorem ledger_score_dominates_dashboard (t : ℤ) (dur : ℚ) (d s : ℚ)
    (hd0 : 0 ≤ d) (hd1 : d ≤ 1) (hs0 : 0 ≤ s) (hs1 : s ≤ 1) :
    (createSessionData ⟨t, d, s⟩ []).safetyScore
      ≤ (calculateSafetyScore ⟨d, s, 0, 100, dur⟩).overallScore := by
  have hdash : (createSessionData ⟨t, d, s⟩ []).safetyScore
      = jsRound (max 0 (100 - (d * 30 + s * 25))) := by
    simp [createSessionData]
  have hmaxd : max (0:ℚ) (100 - d * 20) = 100 - d * 20 := by
    apply max_eq_right; linarith
  have hmaxs : max (0:ℚ) (100 - s * 15) = 100 - s * 15 := by
    apply max_eq_right; linarith
  have hled : (calculateSafetyScore ⟨d, s, 0, 100, dur⟩).overallScore
      = min 100 (max 0 (jsRound ((100 - d * 20) * 0.3 + (100 - s * 15) * 0.25
          + 100 * 0.25 + 100 * 0.2))) := by
    simp only [calculateSafetyScore, hmaxd, hmaxs]
    norm_num
  rw [hdash, hled]
  have hmaxdash : max (0:ℚ) (100 - (d * 30 + s * 25)) = 100 - (d * 30 + s * 25) := by
    apply max_eq_right; linarith
  rw [hmaxdash]
  have hle : jsRound (100 - (d * 30 + s * 25))
      ≤ jsRound ((100 - d * 20) * 0.3 + (100 - s * 15) * 0.25 + 100 * 0.25 + 100 * 0.2) := by
    apply jsRound_mono; nlinarith
  have hub : jsRound ((100 - d * 20) * 0.3 + (100 - s * 15) * 0.25 + 100 * 0.25 + 100 * 0.2)
      ≤ 100 := by
    have : ((100 - d * 20) * 0.3 + (100 - s * 15) * 0.25 + 100 * 0.25 + 100 * 0.2 : ℚ)
        ≤ 100 := by nlinarith
    calc jsRound _ ≤ jsRound 100 := jsRound_mono this
      _ = 100 := by norm_num [jsRound]
  have hlb : (0:ℤ) ≤ jsRound (100 - (d * 30 + s * 25)) := by
    have h45 : (0:ℚ) ≤ 100 - (d * 30 + s * 25) := by nlinarith
    have := jsRound_mono h45
    simpa [jsRound] using this.trans_eq' (by norm_num [jsRound])
  omega

/-- Witness for C3's amended theorem at drowsiness `= stress = 1/2`. -/
theorem ledger_score_dominates_dashboard_witness :
    (0 : ℚ) ≤ 1/2 ∧ (1/2 : ℚ) ≤ 1
    ∧ (createSessionData ⟨0, 1/2, 1/2⟩ []).safetyScore
        ≤ (calculateSafetyScore ⟨1/2, 1/2, 0, 100, 3600⟩).overallScore :=
  ⟨by norm_num, by norm_num,
   ledger_score_dominates_dashboard 0 3600 (1/2) (1/2)
     (by norm_num) (by norm_num) (by norm_num) (by norm_num)⟩

/-- C4: with contracts ready, a settlement request with
`safetyScore < 70` returns the below-threshold error result (no crash),
performs no mint and leaves the ledger state — hence the driver's
balance — unchanged; a request with `safetyScore ≥ 70` proceeds to mint:
it succeeds and credits exactly the settlement reward amount. -/
theorem distributeRewards_gate (baseRate cap : ℚ) (durationFactor : ℕ → ℚ)
    (sessionId : ℕ) (sc : SafetyScore) (duration : ℕ) (st : LedgerState) :
    (sc.overallScore < 70 →
       distributeRewards baseRate cap durationFactor true sessionId sc duration st
         = (⟨false, none, some "Safety score too low for rewards (minimum 70%)"⟩, st))
    ∧ (70 ≤ sc.overallScore → sessionId ∉ st.settledSessions →
       (distributeRewards baseRate cap durationFactor true sessionId sc duration st).1.success
           = true
       ∧ (distributeRewards baseRate cap durationFactor true sessionId sc duration
             st).2.account.currentBalance
           = st.account.currentBalance
             + min cap ((sc.overallScore : ℚ) / 100 * baseRate * durationFactor duration)) := by
  constructor
  · intro h
    simp [distributeRewards, h]
  · intro h hs
    have h' : ¬ sc.overallScore < 70 := by omega
    simp [distributeRewards, settleSession, h', hs]

/-- Witness for C4: `safetyScore = 65, duration = 3600` is rejected with
the balance untouched, and `safetyScore = 90, duration = 3600` mints. -/
theorem distributeRewards_gate_witness :
    ((⟨0, 0, 0, 100, 65⟩ : SafetyScore).overallScore < 70
      ∧ distributeRewards 1 1000 (fun _ => 1) true 7 ⟨0, 0, 0, 100, 65⟩ 3600 emptyLedger
          = (⟨false, none, some "Safety score too low for rewards (minimum 70%)"⟩,
             emptyLedger))
    ∧ ((70 : ℤ) ≤ (⟨0, 0, 0, 100, 90⟩ : SafetyScore).overallScore
      ∧ (distributeRewards 1 1000 (fun _ => 1) true 7 ⟨0, 0, 0, 100, 90⟩ 3600
            emptyLedger).1.success = true
      ∧ (distributeRewards 1 1000 (fun _ => 1) true 7 ⟨0, 0, 0, 100, 90⟩ 3600
            emptyLedger).2.account.currentBalance
          = emptyLedger.account.currentBalance
            + min 1000 (((90 : ℤ) : ℚ) / 100 * 1 * 1)) := by
  refine ⟨⟨by norm_num, ?_⟩, ⟨by norm_num, ?_, ?_⟩⟩
  · exact (distributeRewards_gate 1 1000 (fun _ => 1) 7 ⟨0, 0, 0, 100, 65⟩ 3600
      emptyLedger).1 (by norm_num)
  · exact ((distributeRewards_gate 1 1000 (fun _ => 1) 7 ⟨0, 0, 0, 100, 90⟩ 3600
      emptyLedger).2 (by norm_num) (by simp [emptyLedger])).1
  · exact ((distributeRewards_gate 1 1000 (fun _ => 1) 7 ⟨0, 0, 0, 100, 90⟩ 3600
      emptyLedger).2 (by norm_num) (by simp [emptyLedger])).2

/-- `unackCount` distributes over append. -/
lemma unackCount_append (t : AlertType) (l₁ l₂ : List Alert) :
    unackCount t (l₁ ++ l₂) = unackCount t l₁ + unackCount t l₂ := by
  simp [unackCount, List.filter_append]

/-- `unackCount` is monotone under sublists. -/
lemma unackCount_le_of_sublist (t : AlertType) {l₁ l₂ : List Alert}
    (h : l₁.Sublist l₂) : unackCount t l₁ ≤ unackCount t l₂ :=
  List.Sublist.length_le (h.filter _)

/-- `unackCount` is bounded by the list length. -/
lemma unackCount_le_length (t : AlertType) (l : List Alert) :
    unackCount t l ≤ l.length :=
  List.length_filter_le _ _

/-- Lists without alerts of type `t` contribute no unacknowledged `t`
alerts. -/
lemma unackCount_eq_zero_of_type_ne (t : AlertType) (l : List Alert)
    (h : ∀ a ∈ l, a.type ≠ t) : unackCount t l = 0 := by
  simp only [unackCount, List.length_eq_zero]
  rw [List.filter_eq_nil_iff]
  intro a ha
  simp [h a ha]

/-- Every generated drowsiness alert has type `drowsiness`. -/
lemma drowsinessAlerts_type (now : ℤ) (d : ℚ) :
    ∀ a ∈ drowsinessAlerts now d, a.type = .drowsiness := by
  unfold drowsinessAlerts
  split_ifs <;> simp

/-- Every generated stress alert has type `stress`. -/
lemma stressAlerts_type (now : ℤ) (s : ℚ) :
    ∀ a ∈ stressAlerts now s, a.type = .stress := by
  unfold stressAlerts
  split_ifs <;> simp

/-- At most one drowsiness alert is generated per sample. -/
lemma drowsinessAlerts_length (now : ℤ) (d : ℚ) :
    (drowsinessAlerts now d).length ≤ 1 := by
  unfold drowsinessAlerts
  split_ifs <;> simp

/-- At most one stress alert is generated per sample. -/
lemma stressAlerts_length (now : ℤ) (s : ℚ) :
    (stressAlerts now s).length ≤ 1 := by
  unfold stressAlerts
  split_ifs <;> simp

/-- A list whose alerts all have type `t'` has no unacknowledged alerts
of any other type. -/
lemma unackCount_zero_of_all_type (t t' : AlertType) (l : List Alert)
    (hl : ∀ a ∈ l, a.type = t') (hne : t' ≠ t) : unackCount t l = 0 :=
  unackCount_eq_zero_of_type_ne t l fun a ha => by rw [hl a ha]; exact hne

/-- A single sample generates at most one (unacknowledged) alert of each
type. -/
lemma newAlerts_unack_le_one (now : ℤ) (d s : ℚ) (t : AlertType) :
    unackCount t (drowsinessAlerts now d ++ stressAlerts now s) ≤ 1 := by
  rw [unackCount_append]
  have hd1 : unackCount t (drowsinessAlerts now d) ≤ 1 :=
    (unackCount_le_length _ _).trans (drowsinessAlerts_length now d)
  have hs1 : unackCount t (stressAlerts now s) ≤ 1 :=
    (unackCount_le_length _ _).trans (stressAlerts_length now s)
  cases t with
  | drowsiness =>
    have h0 : unackCount .drowsiness (stressAlerts now s) = 0 :=
      unackCount_zero_of_all_type _ _ _ (stressAlerts_type now s) (by simp)
    omega
  | stress =>
    have h0 : unackCount .stress (drowsinessAlerts now d) = 0 :=
      unackCount_zero_of_all_type _ _ _ (drowsinessAlerts_type now d) (by simp)
    omega
  | steering =>
    have h0 : unackCount .steering (drowsinessAlerts now d) = 0 :=
      unackCount_zero_of_all_type _ _ _ (drowsinessAlerts_type now d) (by simp)
    have h1 : unackCount .steering (stressAlerts now s) = 0 :=
      unackCount_zero_of_all_type _ _ _ (stressAlerts_type now s) (by simp)
    omega
  | breakReminder =>
    have h0 : unackCount .breakReminder (drowsinessAlerts now d) = 0 :=
      unackCount_zero_of_all_type _ _ _ (drowsinessAlerts_type now d) (by simp)
    have h1 : unackCount .breakReminder (stressAlerts now s) = 0 :=
      unackCount_zero_of_all_type _ _ _ (stressAlerts_type now s) (by simp)
    omega

/-- The filter pass of the alert effect removes every unacknowledged
previous alert whose type reappears among the new alerts. -/
lemma filtered_unack_zero (prev newAlerts : List Alert) (t : AlertType)
    (hex : ∃ na ∈ newAlerts, na.type = t) :
    unackCount t (prev.filter fun alert =>
      ! newAlerts.any fun newAlert => newAlert.type == alert.type && ! alert.acknowledged)
      = 0 := by
  obtain ⟨na, hna, hnat⟩ := hex
  unfold unackCount
  rw [List.filter_filter, List.length_eq_zero, List.filter_eq_nil_iff]
  intro a _
  by_cases hty : a.type = t
  · by_cases hack : a.acknowledged
    · simp [hack]
    · have : newAlerts.any (fun newAlert => newAlert.type == a.type && ! a.acknowledged)
          = true :=
        List.any_eq_true.mpr ⟨na, hna, by simp [hnat, hty, hack]⟩
      simp [this]
  · simp [hty]

/-- `slice(-n)` yields a sublist. -/
lemma sliceLast_sublist {α : Type} (n : ℕ) (l : List α) : (sliceLast n l).Sublist l :=
  List.drop_sublist _ _

/-- One alert-effect run preserves the at-most-one-unacknowledged-per-type
invariant. -/
lemma alertsStep_preserves_invariant (now : ℤ) (data : MonitoringData)
    (prev : List Alert) (hinv : atMostOneUnackPerType prev) :
    atMostOneUnackPerType (alertsStep now data prev) := by
  unfold alertsStep
  cases hact : data.isActive with
  | false => simpa using hinv
  | true =>
    simp only [Bool.not_true, Bool.false_eq_true, if_false]
    set newAlerts := drowsinessAlerts now data.drowsiness ++ stressAlerts now data.stress
      with hnew
    by_cases hempty : newAlerts.isEmpty
    · simp only [hempty, if_true]
      exact hinv
    · rw [if_neg hempty]
      intro t
      set filtered := prev.filter fun alert =>
        ! newAlerts.any fun newAlert => newAlert.type == alert.type && ! alert.acknowledged
        with hfil
      have hsub : unackCount t (sliceLast 10 (filtered ++ newAlerts))
          ≤ unackCount t (filtered ++ newAlerts) :=
        unackCount_le_of_sublist t (sliceLast_sublist _ _)
      rw [unackCount_append] at hsub
      by_cases hex : ∃ na ∈ newAlerts, na.type = t
      · have h0 : unackCount t filtered = 0 := filtered_unack_zero prev newAlerts t hex
        have h1 : unackCount t newAlerts ≤ 1 := newAlerts_unack_le_one now _ _ t
        omega
      · push_neg at hex
        have h0 : unackCount t newAlerts = 0 :=
          unackCount_eq_zero_of_type_ne t newAlerts hex
        have h1 : unackCount t filtered ≤ unackCount t prev :=
          unackCount_le_of_sublist t (List.filter_sublist prev)
        have h2 := hinv t
        omega

/-- `unackCount` on a cons. -/
lemma unackCount_cons (t : AlertType) (a : Alert) (x : List Alert) :
    unackCount t (a :: x)
      = (if (a.type == t && ! a.acknowledged) = true then 1 else 0) + unackCount t x := by
  simp only [unackCount, List.filter_cons]
  split <;> simp [Nat.add_comm]

/-- Acknowledging never increases the unacknowledged count. -/
lemma unackCount_acknowledge_le (alertId : String) (t : AlertType) (l : List Alert) :
    unackCount t (acknowledgeAlert alertId l) ≤ unackCount t l := by
  induction l with
  | nil => simp [acknowledgeAlert, unackCount]
  | cons a l ih =>
    have hstep : acknowledgeAlert alertId (a :: l)
        = (if a.id == alertId then { a with acknowledged := true } else a)
            :: acknowledgeAlert alertId l := by
      simp [acknowledgeAlert]
    rw [hstep]
    by_cases hid : (a.id == alertId) = true
    · rw [if_pos hid, unackCount_cons, unackCount_cons]
      simp only [Bool.not_true, Bool.and_false, Bool.false_eq_true, if_false]
      split <;> omega
    · rw [if_neg hid, unackCount_cons, unackCount_cons]
      omega

/-- `acknowledgeAlert` preserves the invariant. -/
lemma acknowledgeAlert_preserves_invariant (alertId : String) (prev : List Alert)
    (hinv : atMostOneUnackPerType prev) :
    atMostOneUnackPerType (acknowledgeAlert alertId prev) :=
  fun t => (unackCount_acknowledge_le alertId t prev).trans (hinv t)

/-- `dismissAlert` preserves the invariant. -/
lemma dismissAlert_preserves_invariant (alertId : String) (prev : List Alert)
    (hinv : atMostOneUnackPerType prev) :
    atMostOneUnackPerType (dismissAlert alertId prev) :=
  fun t => (unackCount_le_of_sublist t (List.filter_sublist prev)).trans (hinv t)

/-- Elements of a short enough suffix survive `slice(-n)`. -/
lemma mem_sliceLast_append {α : Type} (l₁ : List α) {l₂ : List α} {n : ℕ}
    (h : l₂.length ≤ n) :
    ∀ a ∈ l₂, a ∈ sliceLast n (l₁ ++ l₂) := by
  intro a ha
  unfold sliceLast
  rw [List.length_append, List.drop_append_eq_append_drop]
  apply List.mem_append_right
  have hz : l₁.length + l₂.length - n - l₁.length = 0 := by omega
  rw [hz, List.drop_zero]
  exact ha

/-- The drowsiness branch yields nothing or exactly one unacknowledged
drowsiness alert. -/
lemma drowsinessAlerts_shape (now : ℤ) (d : ℚ) :
    drowsinessAlerts now d = []
    ∨ ∃ a, drowsinessAlerts now d = [a] ∧ a.type = .drowsiness ∧ a.acknowledged = false := by
  unfold drowsinessAlerts
  split_ifs <;> simp

/-- A qualifying sample (`d > 0.35`) always generates one unacknowledged
drowsiness alert. -/
lemma drowsinessAlerts_of_qualifying (now : ℤ) (d : ℚ) (h : (0.35 : ℚ) < d) :
    ∃ a, drowsinessAlerts now d = [a] ∧ a.type = .drowsiness ∧ a.acknowledged = false := by
  rcases drowsinessAlerts_shape now d with hnil | hex
  · exfalso
    unfold drowsinessAlerts at hnil
    split_ifs at hnil
  · exact hex

/-- A qualifying active sample always leaves an unacknowledged drowsiness
alert in the processed list. -/
lemma alertsStep_emits_drowsiness (now : ℤ) (d s : ℚ) (prev : List Alert)
    (h : (0.35 : ℚ) < d) :
    (alertsStep now ⟨d, s, true⟩ prev).any
      (fun a => a.type == AlertType.drowsiness && ! a.acknowledged) = true := by
  obtain ⟨a, ha, hty, hack⟩ := drowsinessAlerts_of_qualifying now d h
  unfold alertsStep
  simp only [Bool.not_true, Bool.false_eq_true, if_false]
  set newAlerts := drowsinessAlerts now d ++ stressAlerts now s with hnew
  have hmemnew : a ∈ newAlerts := by
    rw [hnew, ha]; exact List.mem_append_left _ (by simp)
  have hne : ¬ newAlerts.isEmpty = true := by
    rw [hnew, ha]; simp
  rw [if_neg hne]
  have hlen : newAlerts.length ≤ 10 := by
    rw [hnew, ha]
    have := stressAlerts_length now s
    simp only [List.length_append, List.length_cons, List.length_nil]
    omega
  have hmem := mem_sliceLast_append
    (prev.filter fun alert =>
      ! newAlerts.any fun newAlert => newAlert.type == alert.type && ! alert.acknowledged)
    hlen a hmemnew
  exact List.any_eq_true.mpr ⟨a, hmem, by simp [hty, hack]⟩

/-- C8: from any alert list satisfying the at-most-one-unacknowledged-
alert-per-type invariant, processing a later sample never leaves a
duplicate — the list still holds at most one unacknowledged alert of each
type (a re-entered tier replaces rather than duplicates) — and
`acknowledgeAlert` / `dismissAlert` preserve the invariant; after an
acknowledgment, the next qualifying sample emits a new unacknowledged
alert of that type. -/
theorem alert_dedup_and_reemission (now : ℤ) (data : MonitoringData) (d s : ℚ)
    (alertId : String) (prev : List Alert) (hinv : atMostOneUnackPerType prev) :
    atMostOneUnackPerType (alertsStep now data prev)
    ∧ atMostOneUnackPerType (acknowledgeAlert alertId prev)
    ∧ atMostOneUnackPerType (dismissAlert alertId prev)
    ∧ ((0.35 : ℚ) < d →
        (alertsStep now ⟨d, s, true⟩ (acknowledgeAlert alertId prev)).any
          (fun a => a.type == AlertType.drowsiness && ! a.acknowledged) = true) :=
  ⟨alertsStep_preserves_invariant now data prev hinv,
   acknowledgeAlert_preserves_invariant alertId prev hinv,
   dismissAlert_preserves_invariant alertId prev hinv,
   fun h => alertsStep_emits_drowsiness now d s (acknowledgeAlert alertId prev) h⟩

/-- Witness for C8 from the empty alert list with a critical drowsiness
sample, after acknowledging an id. -/
theorem alert_dedup_and_reemission_witness :
    atMostOneUnackPerType []
    ∧ atMostOneUnackPerType (alertsStep 0 ⟨1, 0, true⟩ [])
    ∧ (alertsStep 0 ⟨1, 0, true⟩ (acknowledgeAlert "drowsiness-0" [])).any
        (fun a => a.type == AlertType.drowsiness && ! a.acknowledged) = true := by
  have hinv : atMostOneUnackPerType ([] : List Alert) := by
    intro t; simp [unackCount]
  refine ⟨hinv, ?_, ?_⟩
  · exact (alert_dedup_and_reemission 0 ⟨1, 0, true⟩ 1 0 "drowsiness-0" [] hinv).1
  · exact (alert_dedup_and_reemission 0 ⟨1, 0, true⟩ 1 0 "drowsiness-0" [] hinv).2.2.2
      (by norm_num)

end SafeDrive
